import Mathlib

/-!
Shallow embedding of the WhatsApp webhook service (`app.py`): the
`ConversationManager` session store and the `/eventgrid` dispatch pipeline
(`eventgrid_listener`), together with the Python value/exception semantics
the endpoint relies on (dict `.get`, `[]` indexing, iteration, `startswith`).
External calls (the OpenAI-backed `ChatAssistant.chat` and the ACS
`send_text_message`) are modelled as oracle parameters that may fail, since
an exception from either propagates like any other Python exception.
-/

/-- JSON-like values as decoded by `request.get_json` (Python objects). -/
inductive Json where
  | null : Json
  | str : String → Json
  | num : Int → Json
  | arr : List Json → Json
  | obj : List (String × Json) → Json

/-- First-match field lookup in a decoded JSON object (Python dict access;
a Python dict has unique keys, so first match is the match). -/
def Json.lookupField (k : String) : List (String × Json) → Option Json
  | [] => none
  | p :: rest => if p.1 = k then some p.2 else Json.lookupField k rest

/-- Python `x.get(k, default)`: AttributeError (modelled `.error`) unless the
receiver is a dict. -/
def Json.pyGet (j : Json) (k : String) (default : Json) : Except Unit Json :=
  match j with
  | .obj fields => .ok ((Json.lookupField k fields).getD default)
  | _ => .error ()

/-- Python `x[k]`: KeyError when the key is missing, TypeError when the
receiver is not a dict; both modelled `.error`. -/
def Json.pyIndex (j : Json) (k : String) : Except Unit Json :=
  match j with
  | .obj fields =>
    match Json.lookupField k fields with
    | some v => .ok v
    | none => .error ()
  | _ => .error ()

/-- Python iteration `for e in x`: a list yields its elements, a dict yields
its keys, a string yields its one-character substrings; anything else raises
TypeError. -/
def Json.pyIter : Json → Except Unit (List Json)
  | .arr xs => .ok xs
  | .obj fields => .ok (fields.map fun p => Json.str p.1)
  | .str s => .ok (s.data.map fun c => Json.str (String.mk [c]))
  | _ => .error ()

/-- Python `j == "s"` for a value of unknown type: true exactly when the value
is that string. -/
def Json.isStr (j : Json) (s : String) : Bool :=
  match j with
  | .str t => t = s
  | _ => false

/-- Python `s.startswith(p)` for strings. -/
def pyStartsWith (s p : String) : Bool := p.data.isPrefixOf s.data

/-- Sender normalization, app.py lines 309-310: prepend `"+"` unless the
number already starts with it. -/
def normalizeSender (s : String) : String :=
  if pyStartsWith s "+" then s else "+" ++ s

/-- The `from_number.startswith("+")` step applied to the raw `from` value:
AttributeError unless it is a string (in particular on `None`), otherwise the
normalized string. -/
def normalizeFrom (j : Json) : Except Unit String :=
  match j with
  | .str s => .ok (normalizeSender s)
  | _ => .error ()

/-- One entry of `ConversationManager.conversations`: the bot handle
(ChatAssistant instances modelled as distinct Nat ids) and `last_activity`. -/
structure SessionEntry where
  bot : Nat
  last_activity : Nat
deriving DecidableEq, Repr

/-- `ConversationManager` state (app.py lines 33-37): the dict modelled as an
insertion-ordered association list, plus `expiry_seconds`. The lock only
serializes calls, so the sequential model passes states explicitly. -/
structure CMState where
  conversations : List (String × SessionEntry)
  expiry_seconds : Nat
deriving DecidableEq, Repr

/-- Python dict lookup on the conversations mapping. -/
def lookupAssoc (k : String) : List (String × SessionEntry) → Option SessionEntry
  | [] => none
  | p :: rest => if p.1 = k then some p.2 else lookupAssoc k rest

/-- In-place update of the entry at key `k` (Python
`self.conversations[user_id]["last_activity"] = now`). -/
def assocUpdate (k : String) (f : SessionEntry → SessionEntry)
    (l : List (String × SessionEntry)) : List (String × SessionEntry) :=
  l.map fun p => if p.1 = k then (p.1, f p.2) else p

/-- `ConversationManager.cleanup` (app.py lines 49-53): delete every entry
with `now - last_activity > expiry_seconds`. -/
def ConversationManager.cleanup (st : CMState) (now : Nat) : CMState :=
  { st with conversations :=
      st.conversations.filter fun p => ! decide (now - p.2.last_activity > st.expiry_seconds) }

/-- `ConversationManager.get_or_create` (app.py lines 39-47). The factory
callback's would-be result is passed as `freshBot`; the returned Bool records
whether the factory was invoked. Returns (new state, bot handle, invoked?). -/
def ConversationManager.get_or_create (st : CMState) (now : Nat) (user_id : String)
    (freshBot : Nat) : CMState × Nat × Bool :=
  let st1 := ConversationManager.cleanup st now
  match lookupAssoc user_id st1.conversations with
  | none =>
      ({ st1 with conversations := st1.conversations ++ [(user_id, ⟨freshBot, now⟩)] },
       freshBot, true)
  | some e =>
      ({ st1 with conversations :=
          assocUpdate user_id (fun d => { d with last_activity := now }) st1.conversations },
       e.bot, false)

/-- Pipeline-visible state: the conversation manager plus a counter allocating
ids for the ChatAssistant instances the factory lambda constructs
(app.py line 317 — each invocation builds a brand-new assistant). -/
structure WebState where
  cm : CMState
  nextBot : Nat
deriving DecidableEq, Repr

/-- `conversation_manager.get_or_create(from_number, lambda: ChatAssistant(...))`
as called by the webhook: the factory allocates a fresh bot id. -/
def webGetOrCreate (ws : WebState) (now : Nat) (user_id : String) : WebState × Nat × Bool :=
  let r := ConversationManager.get_or_create ws.cm now user_id ws.nextBot
  (⟨r.1, if r.2.2 then ws.nextBot + 1 else ws.nextBot⟩, r.2.1, r.2.2)

/-- HTTP-level outcomes of the `/eventgrid` endpoint. -/
inductive HttpResponse where
  | empty200 : HttpResponse
  | validation200 (code : Json) : HttpResponse
  | error400 : HttpResponse

/-- Result of one request: final state, the outbound sends triggered
(recipient, text) in order, and the HTTP response. -/
structure DispatchResult where
  state : WebState
  sends : List (String × String)
  response : HttpResponse

/-- Message-body extraction, app.py line 307: `data.get("content", "")`. -/
def extractBody (data : Json) : Except Unit Json :=
  data.pyGet "content" (Json.str "")

/-- The for-loop over events (app.py lines 300-321), with the surrounding
try/except turning any raised exception into `abort(400)`. `chat` models
`bot.chat` (`none` = exception raised), `send` models
`MessagesQuickstart.send_text_message` (`false` = exception raised);
each triggered send is recorded at call time. -/
def processEvents (chat : Nat → Json → Option String) (send : String → String → Bool)
    (now : Nat) : List Json → WebState → List (String × String) → DispatchResult
  | [], ws, sends => ⟨ws, sends, .empty200⟩
  | e :: rest, ws, sends =>
    match e.pyGet "eventType" Json.null with
    | .error _ => ⟨ws, sends, .error400⟩
    | .ok et =>
      if et.isStr "Microsoft.EventGrid.SubscriptionValidationEvent" then
        match e.pyIndex "data" with
        | .error _ => ⟨ws, sends, .error400⟩
        | .ok d =>
          match d.pyIndex "validationCode" with
          | .error _ => ⟨ws, sends, .error400⟩
          | .ok code => ⟨ws, sends, .validation200 code⟩
      else if et.isStr "Microsoft.Communication.AdvancedMessageReceived" then
        match e.pyGet "data" (Json.obj []) with
        | .error _ => ⟨ws, sends, .error400⟩
        | .ok data =>
          match data.pyGet "from" Json.null with
          | .error _ => ⟨ws, sends, .error400⟩
          | .ok senderJ =>
            match extractBody data with
            | .error _ => ⟨ws, sends, .error400⟩
            | .ok body =>
              match normalizeFrom senderJ with
              | .error _ => ⟨ws, sends, .error400⟩
              | .ok sender =>
                match webGetOrCreate ws now sender with
                | (ws1, bot, _) =>
                  match chat bot body with
                  | none => ⟨ws1, sends, .error400⟩
                  | some reply =>
                    if send sender reply then
                      processEvents chat send now rest ws1 (sends ++ [(sender, reply)])
                    else ⟨ws1, sends ++ [(sender, reply)], .error400⟩
      else
        processEvents chat send now rest ws sends

/-- `eventgrid_listener` (app.py lines 294-325). `body = none` models a
request whose JSON cannot be decoded (`request.get_json` raises, caught by
the except clause as HTTP 400). -/
def eventgrid_listener (chat : Nat → Json → Option String) (send : String → String → Bool)
    (now : Nat) (ws : WebState) (body : Option Json) : DispatchResult :=
  match body with
  | none => ⟨ws, [], .error400⟩
  | some j =>
    match j.pyIter with
    | .error _ => ⟨ws, [], .error400⟩
    | .ok events => processEvents chat send now events ws []

/-- An EventGrid subscription-validation event with the given code. -/
def mkValidationEvent (code : String) : Json :=
  Json.obj [("eventType", Json.str "Microsoft.EventGrid.SubscriptionValidationEvent"),
            ("data", Json.obj [("validationCode", Json.str code)])]

/-- An AdvancedMessageReceived event with flat `content`. -/
def mkMsgEvent (sender body : String) : Json :=
  Json.obj [("eventType", Json.str "Microsoft.Communication.AdvancedMessageReceived"),
            ("data", Json.obj [("from", Json.str sender), ("content", Json.str body)])]

/-- A chat oracle that always succeeds, echoing text bodies. -/
def chatEcho : Nat → Json → Option String := fun _ j =>
  match j with
  | .str s => some ("re:" ++ s)
  | _ => some "nontext"

/-- A chat oracle whose call for bot 0 raises (models the first session's
agent call failing). -/
def chatFailBot0 : Nat → Json → Option String := fun b j =>
  if b = 0 then none else chatEcho b j

/-- An outbound-send oracle that never raises. -/
def sendOk : String → String → Bool := fun _ _ => true

/-- Fresh server state: empty conversations, the deployed 1800-second TTL. -/
def ws0 : WebState := ⟨⟨[], 1800⟩, 0⟩

/-! ### Association-list lemmas for the conversations dict -/

theorem lookupAssoc_eq_none_iff (k : String) (l : List (String × SessionEntry)) :
    lookupAssoc k l = none ↔ k ∉ l.map Prod.fst := by
  induction l with
  | nil => simp [lookupAssoc]
  | cons q rest ih =>
    by_cases h : q.1 = k
    · simp [lookupAssoc, h]
    · simp [lookupAssoc, h, ih, Ne.symm h]

theorem lookupAssoc_append_left_none {k : String} {l1 : List (String × SessionEntry)}
    (h : lookupAssoc k l1 = none) (l2 : List (String × SessionEntry)) :
    lookupAssoc k (l1 ++ l2) = lookupAssoc k l2 := by
  induction l1 with
  | nil => simp
  | cons q rest ih =>
    by_cases h1 : q.1 = k
    · simp [lookupAssoc, h1] at h
    · simp only [lookupAssoc, h1, if_false] at h
      simp [lookupAssoc, h1, ih h]

theorem lookupAssoc_assocUpdate_self (k : String) (f : SessionEntry → SessionEntry)
    (l : List (String × SessionEntry)) :
    lookupAssoc k (assocUpdate k f l) = (lookupAssoc k l).map f := by
  induction l with
  | nil => rfl
  | cons q rest ih =>
    by_cases h : q.1 = k
    · simp [assocUpdate, lookupAssoc, h]
    · simp only [assocUpdate, List.map_cons, if_neg h] at *
      simp [lookupAssoc, h, ih]

theorem lookupAssoc_filter_of_some {k : String} {l : List (String × SessionEntry)}
    {e : SessionEntry} {p : String × SessionEntry → Bool}
    (hl : lookupAssoc k l = some e) (hp : p (k, e) = true) :
    lookupAssoc k (l.filter p) = some e := by
  induction l with
  | nil => simp [lookupAssoc] at hl
  | cons q rest ih =>
    rcases q with ⟨a, b⟩
    by_cases h1 : a = k
    · subst h1
      have hb : b = e := by simpa [lookupAssoc] using hl
      subst hb
      simp [List.filter_cons, hp, lookupAssoc]
    · have hl2 : lookupAssoc k rest = some e := by simpa [lookupAssoc, h1] using hl
      cases hq : p (a, b) with
      | true => simpa [List.filter_cons, hq, lookupAssoc, h1] using ih hl2
      | false => simpa [List.filter_cons, hq] using ih hl2

theorem lookupAssoc_filter_none {k : String} {l : List (String × SessionEntry)}
    (p : String × SessionEntry → Bool) (hl : lookupAssoc k l = none) :
    lookupAssoc k (l.filter p) = none := by
  induction l with
  | nil => simp [lookupAssoc]
  | cons q rest ih =>
    rcases q with ⟨a, b⟩
    by_cases h1 : a = k
    · simp [lookupAssoc, h1] at hl
    · have hl2 : lookupAssoc k rest = none := by simpa [lookupAssoc, h1] using hl
      cases hq : p (a, b) with
      | true => simpa [List.filter_cons, hq, lookupAssoc, h1] using ih hl2
      | false => simpa [List.filter_cons, hq] using ih hl2

theorem lookupAssoc_filter_of_expired {k : String} {l : List (String × SessionEntry)}
    {e : SessionEntry} {p : String × SessionEntry → Bool}
    (hnd : (l.map Prod.fst).Nodup) (hl : lookupAssoc k l = some e) (hp : p (k, e) = false) :
    lookupAssoc k (l.filter p) = none := by
  induction l with
  | nil => simp [lookupAssoc] at hl
  | cons q rest ih =>
    rcases q with ⟨a, b⟩
    simp only [List.map_cons, List.nodup_cons] at hnd
    by_cases h1 : a = k
    · subst h1
      have hb : b = e := by simpa [lookupAssoc] using hl
      subst hb
      rw [List.filter_cons, if_neg (by simp [hp])]
      exact lookupAssoc_filter_none p ((lookupAssoc_eq_none_iff _ _).mpr hnd.1)
    · have hl2 : lookupAssoc k rest = some e := by simpa [lookupAssoc, h1] using hl
      cases hq : p (a, b) with
      | true => simpa [List.filter_cons, hq, lookupAssoc, h1] using ih hnd.2 hl2
      | false => simpa [List.filter_cons, hq] using ih hnd.2 hl2

theorem lookupAssoc_filter_some_inv {k : String} {l : List (String × SessionEntry)}
    {e : SessionEntry} {p : String × SessionEntry → Bool}
    (hnd : (l.map Prod.fst).Nodup) (h : lookupAssoc k (l.filter p) = some e) :
    lookupAssoc k l = some e ∧ p (k, e) = true := by
  induction l with
  | nil => simp [lookupAssoc] at h
  | cons q rest ih =>
    rcases q with ⟨a, b⟩
    simp only [List.map_cons, List.nodup_cons] at hnd
    by_cases h1 : a = k
    · subst h1
      cases hq : p (a, b) with
      | true =>
        have hb : b = e := by
          rw [List.filter_cons, if_pos (by simp [hq])] at h
          simpa [lookupAssoc] using h
        subst hb
        exact ⟨by simp [lookupAssoc], hq⟩
      | false =>
        rw [List.filter_cons, if_neg (by simp [hq])] at h
        rw [lookupAssoc_filter_none p ((lookupAssoc_eq_none_iff _ _).mpr hnd.1)] at h
        cases h
    · cases hq : p (a, b) with
      | true =>
        have h2 : lookupAssoc k (List.filter p rest) = some e := by
          rw [List.filter_cons, if_pos (by simp [hq])] at h
          simpa [lookupAssoc, h1] using h
        exact ⟨by simp [lookupAssoc, h1, (ih hnd.2 h2).1], (ih hnd.2 h2).2⟩
      | false =>
        have h2 : lookupAssoc k (List.filter p rest) = some e := by
          rw [List.filter_cons, if_neg (by simp [hq])] at h
          exact h
        exact ⟨by simp [lookupAssoc, h1, (ih hnd.2 h2).1], (ih hnd.2 h2).2⟩

theorem mem_of_lookupAssoc {k : String} {l : List (String × SessionEntry)} {e : SessionEntry}
    (h : lookupAssoc k l = some e) : (k, e) ∈ l := by
  induction l with
  | nil => simp [lookupAssoc] at h
  | cons q rest ih =>
    rcases q with ⟨a, b⟩
    by_cases h1 : a = k
    · subst h1
      have hb : b = e := by simpa [lookupAssoc] using h
      subst hb
      exact List.mem_cons_self _ _
    · have h2 : lookupAssoc k rest = some e := by simpa [lookupAssoc, h1] using h
      exact List.mem_cons_of_mem _ (ih h2)

theorem assocUpdate_map_fst (k : String) (f : SessionEntry → SessionEntry)
    (l : List (String × SessionEntry)) :
    (assocUpdate k f l).map Prod.fst = l.map Prod.fst := by
  induction l with
  | nil => rfl
  | cons q rest ih =>
    have hrest : (List.map (fun p => if p.1 = k then (p.1, f p.2) else p) rest).map Prod.fst
        = rest.map Prod.fst := by simpa [assocUpdate] using ih
    by_cases h : q.1 = k <;> simp [assocUpdate, h, hrest]

/-! ### ConversationManager lemmas -/

theorem cleanup_conversations (st : CMState) (now : Nat) :
    (ConversationManager.cleanup st now).conversations =
      st.conversations.filter fun p => ! decide (now - p.2.last_activity > st.expiry_seconds) :=
  rfl

theorem cleanup_expiry (st : CMState) (now : Nat) :
    (ConversationManager.cleanup st now).expiry_seconds = st.expiry_seconds := rfl

theorem get_or_create_hit {st : CMState} {now : Nat} {uid : String} {e : SessionEntry}
    (fresh : Nat)
    (h : lookupAssoc uid (ConversationManager.cleanup st now).conversations = some e) :
    ConversationManager.get_or_create st now uid fresh =
      ({ (ConversationManager.cleanup st now) with
          conversations := assocUpdate uid (fun d => { d with last_activity := now })
            (ConversationManager.cleanup st now).conversations }, e.bot, false) := by
  simp only [ConversationManager.get_or_create, h]

theorem get_or_create_miss {st : CMState} {now : Nat} {uid : String} (fresh : Nat)
    (h : lookupAssoc uid (ConversationManager.cleanup st now).conversations = none) :
    ConversationManager.get_or_create st now uid fresh =
      ({ (ConversationManager.cleanup st now) with
          conversations :=
            (ConversationManager.cleanup st now).conversations ++ [(uid, ⟨fresh, now⟩)] },
       fresh, true) := by
  simp only [ConversationManager.get_or_create, h]

theorem get_or_create_expiry (st : CMState) (now : Nat) (uid : String) (fresh : Nat) :
    (ConversationManager.get_or_create st now uid fresh).1.expiry_seconds =
      st.expiry_seconds := by
  cases h : lookupAssoc uid (ConversationManager.cleanup st now).conversations with
  | none => rw [get_or_create_miss fresh h]; rfl
  | some e => rw [get_or_create_hit fresh h]; rfl

theorem get_or_create_lookup_self (st : CMState) (now : Nat) (uid : String) (fresh : Nat) :
    lookupAssoc uid (ConversationManager.get_or_create st now uid fresh).1.conversations =
      some ⟨(ConversationManager.get_or_create st now uid fresh).2.1, now⟩ := by
  cases h : lookupAssoc uid (ConversationManager.cleanup st now).conversations with
  | none =>
    rw [get_or_create_miss fresh h]
    simp only
    rw [lookupAssoc_append_left_none h]
    simp [lookupAssoc]
  | some e =>
    rw [get_or_create_hit fresh h]
    simp only
    rw [lookupAssoc_assocUpdate_self, h]
    rfl

theorem get_or_create_keys_nodup {st : CMState} (now : Nat) (uid : String) (fresh : Nat)
    (hnd : (st.conversations.map Prod.fst).Nodup) :
    ((ConversationManager.get_or_create st now uid fresh).1.conversations.map Prod.fst).Nodup := by
  have hclean : ((ConversationManager.cleanup st now).conversations.map Prod.fst).Nodup := by
    rw [cleanup_conversations]
    exact ((List.filter_sublist _).map Prod.fst).nodup hnd
  cases h : lookupAssoc uid (ConversationManager.cleanup st now).conversations with
  | none =>
    rw [get_or_create_miss fresh h]
    simp only [List.map_append, List.map_cons, List.map_nil]
    rw [List.nodup_append]
    refine ⟨hclean, List.nodup_singleton _, ?_⟩
    intro a ha hb
    simp only [List.mem_singleton] at hb
    subst hb
    exact absurd ((lookupAssoc_eq_none_iff _ _).mp h) (by simpa using ha)
  | some e =>
    rw [get_or_create_hit fresh h]
    simpa only [assocUpdate_map_fst] using hclean

theorem webGetOrCreate_snd (ws : WebState) (now : Nat) (uid : String) :
    (webGetOrCreate ws now uid).2
      = (ConversationManager.get_or_create ws.cm now uid ws.nextBot).2 := rfl

theorem webGetOrCreate_bot_lt (ws : WebState) (now : Nat) (uid : String)
    (hbots : ∀ p ∈ ws.cm.conversations, p.2.bot < ws.nextBot) :
    (webGetOrCreate ws now uid).2.1 < (webGetOrCreate ws now uid).1.nextBot := by
  show (ConversationManager.get_or_create ws.cm now uid ws.nextBot).2.1
      < (if (ConversationManager.get_or_create ws.cm now uid ws.nextBot).2.2
          then ws.nextBot + 1 else ws.nextBot)
  cases h : lookupAssoc uid (ConversationManager.cleanup ws.cm now).conversations with
  | none =>
    rw [get_or_create_miss ws.nextBot h]
    simp
  | some e =>
    have hmem : (uid, e) ∈ ws.cm.conversations := by
      have hm := mem_of_lookupAssoc h
      rw [cleanup_conversations] at hm
      exact List.mem_of_mem_filter hm
    rw [get_or_create_hit ws.nextBot h]
    simpa using hbots _ hmem

/-! ### Claim theorems for the session store -/

/-- C3: for every senderID `s` and factory `f`, two sequential
`GetOrCreate(s, f)` calls whose second call occurs within the TTL window of
the first return the same agent handle, and `f` is not invoked by the second
call. -/
theorem C3_second_call_within_ttl_same_handle (ws : WebState) (uid : String)
    (now1 now2 : Nat) (h : now2 - now1 ≤ ws.cm.expiry_seconds) :
    (webGetOrCreate (webGetOrCreate ws now1 uid).1 now2 uid).2
      = ((webGetOrCreate ws now1 uid).2.1, false) := by
  have hlook : lookupAssoc uid (webGetOrCreate ws now1 uid).1.cm.conversations
      = some ⟨(webGetOrCreate ws now1 uid).2.1, now1⟩ :=
    get_or_create_lookup_self ws.cm now1 uid ws.nextBot
  have hexp : (webGetOrCreate ws now1 uid).1.cm.expiry_seconds = ws.cm.expiry_seconds :=
    get_or_create_expiry ws.cm now1 uid ws.nextBot
  have hkeep : lookupAssoc uid
      (ConversationManager.cleanup (webGetOrCreate ws now1 uid).1.cm now2).conversations
      = some ⟨(webGetOrCreate ws now1 uid).2.1, now1⟩ := by
    rw [cleanup_conversations]
    refine lookupAssoc_filter_of_some hlook ?_
    have hnl : ¬ (now2 - (⟨(webGetOrCreate ws now1 uid).2.1, now1⟩ : SessionEntry).last_activity
        > (webGetOrCreate ws now1 uid).1.cm.expiry_seconds) := by
      rw [hexp]
      simp only [gt_iff_lt, Nat.not_lt]
      exact h
    simp [hnl]
  have hhit := get_or_create_hit (webGetOrCreate ws now1 uid).1.nextBot hkeep
  rw [webGetOrCreate_snd ((webGetOrCreate ws now1 uid).1) now2 uid, hhit]

/-- C4: a GetOrCreate call made more than TTL after the sender's last
activity invokes the factory again and returns a new handle distinct from
the expired one; and GetOrCreate never returns a stale (expired) handle. -/
theorem C4_expired_invokes_factory_new_handle (ws : WebState) (uid : String)
    (now1 now2 : Nat)
    (hnd : (ws.cm.conversations.map Prod.fst).Nodup)
    (hbots : ∀ p ∈ ws.cm.conversations, p.2.bot < ws.nextBot)
    (hgap : ws.cm.expiry_seconds < now2 - now1) :
    ((webGetOrCreate (webGetOrCreate ws now1 uid).1 now2 uid).2.2 = true
      ∧ (webGetOrCreate (webGetOrCreate ws now1 uid).1 now2 uid).2.1
          ≠ (webGetOrCreate ws now1 uid).2.1)
    ∧ ∀ (ws2 : WebState) (uid2 : String) (nw : Nat),
        (ws2.cm.conversations.map Prod.fst).Nodup →
        (webGetOrCreate ws2 nw uid2).2.2 = false →
        ∃ e, lookupAssoc uid2 ws2.cm.conversations = some e
          ∧ (webGetOrCreate ws2 nw uid2).2.1 = e.bot
          ∧ nw - e.last_activity ≤ ws2.cm.expiry_seconds := by
  have hlook : lookupAssoc uid (webGetOrCreate ws now1 uid).1.cm.conversations
      = some ⟨(webGetOrCreate ws now1 uid).2.1, now1⟩ :=
    get_or_create_lookup_self ws.cm now1 uid ws.nextBot
  have hexp : (webGetOrCreate ws now1 uid).1.cm.expiry_seconds = ws.cm.expiry_seconds :=
    get_or_create_expiry ws.cm now1 uid ws.nextBot
  have hnd1 : ((webGetOrCreate ws now1 uid).1.cm.conversations.map Prod.fst).Nodup :=
    get_or_create_keys_nodup now1 uid ws.nextBot hnd
  have hexpired : lookupAssoc uid
      (ConversationManager.cleanup (webGetOrCreate ws now1 uid).1.cm now2).conversations
      = none := by
    rw [cleanup_conversations]
    refine lookupAssoc_filter_of_expired hnd1 hlook ?_
    have hlt : (now2 - (⟨(webGetOrCreate ws now1 uid).2.1, now1⟩ : SessionEntry).last_activity
        > (webGetOrCreate ws now1 uid).1.cm.expiry_seconds) := by
      rw [hexp]
      exact hgap
    simp [hlt]
  have hmiss := get_or_create_miss (webGetOrCreate ws now1 uid).1.nextBot hexpired
  refine ⟨⟨?_, ?_⟩, ?_⟩
  · rw [webGetOrCreate_snd ((webGetOrCreate ws now1 uid).1) now2 uid, hmiss]
  · have hlt := webGetOrCreate_bot_lt ws now1 uid hbots
    rw [webGetOrCreate_snd ((webGetOrCreate ws now1 uid).1) now2 uid, hmiss]
    exact ne_of_gt hlt
  · intro ws2 uid2 nw hnd2 hfalse
    rw [webGetOrCreate_snd ws2 nw uid2] at hfalse
    cases hc : lookupAssoc uid2 (ConversationManager.cleanup ws2.cm nw).conversations with
    | none =>
      rw [get_or_create_miss ws2.nextBot hc] at hfalse
      simp at hfalse
    | some e =>
      have hhit := get_or_create_hit ws2.nextBot hc
      rw [cleanup_conversations] at hc
      obtain ⟨h1, h2⟩ := lookupAssoc_filter_some_inv hnd2 hc
      refine ⟨e, h1, ?_, ?_⟩
      · rw [webGetOrCreate_snd ws2 nw uid2, hhit]
      · simpa using h2

/-- C8: a session is returned by a lookup iff `now - lastActivity <= ttl`;
the cleanup sweep removes exactly the entries whose idle time exceeds TTL;
and cleanup is idempotent at a fixed instant. -/
theorem C8_visibility_and_sweep (st : CMState) (now : Nat) (uid : String) (fresh : Nat)
    (hnd : (st.conversations.map Prod.fst).Nodup) :
    ((ConversationManager.get_or_create st now uid fresh).2.2 = false
      ↔ ∃ e, lookupAssoc uid st.conversations = some e
          ∧ now - e.last_activity ≤ st.expiry_seconds)
    ∧ (∀ q, q ∈ (ConversationManager.cleanup st now).conversations
      ↔ q ∈ st.conversations ∧ now - q.2.last_activity ≤ st.expiry_seconds)
    ∧ ConversationManager.cleanup (ConversationManager.cleanup st now) now
      = ConversationManager.cleanup st now := by
  refine ⟨⟨?_, ?_⟩, ?_, ?_⟩
  · intro hfalse
    cases hc : lookupAssoc uid (ConversationManager.cleanup st now).conversations with
    | none =>
      rw [get_or_create_miss fresh hc] at hfalse
      simp at hfalse
    | some e =>
      rw [cleanup_conversations] at hc
      obtain ⟨h1, h2⟩ := lookupAssoc_filter_some_inv hnd hc
      refine ⟨e, h1, ?_⟩
      simpa using h2
  · rintro ⟨e, h1, h2⟩
    have hkeep : lookupAssoc uid (ConversationManager.cleanup st now).conversations = some e := by
      rw [cleanup_conversations]
      refine lookupAssoc_filter_of_some h1 ?_
      have hnl : ¬ (now - e.last_activity > st.expiry_seconds) := by
        simp only [gt_iff_lt, Nat.not_lt]
        exact h2
      simp [hnl]
    rw [get_or_create_hit fresh hkeep]
  · intro q
    rw [cleanup_conversations, List.mem_filter]
    constructor
    · rintro ⟨hq, hp⟩
      exact ⟨hq, by simpa using hp⟩
    · rintro ⟨hq, hp⟩
      refine ⟨hq, ?_⟩
      have hnl : ¬ (now - q.2.last_activity > st.expiry_seconds) := by
        simp only [gt_iff_lt, Nat.not_lt]
        exact hp
      simp [hnl]
  · have hsub : ∀ q ∈ (ConversationManager.cleanup st now).conversations,
        (! decide (now - q.2.last_activity
          > (ConversationManager.cleanup st now).expiry_seconds)) = true := by
      intro q hq
      rw [cleanup_expiry]
      rw [cleanup_conversations] at hq
      exact (List.mem_filter.mp hq).2
    have hconv : (ConversationManager.cleanup (ConversationManager.cleanup st now) now).conversations
        = (ConversationManager.cleanup st now).conversations := by
      rw [cleanup_conversations (ConversationManager.cleanup st now) now]
      exact List.filter_eq_self.mpr hsub
    have hext : ∀ (a b : CMState), a.conversations = b.conversations →
        a.expiry_seconds = b.expiry_seconds → a = b := by
      intro a b h1 h2
      cases a
      cases b
      cases h1
      cases h2
      rfl
    exact hext _ _ hconv rfl

/-! ### Claim theorems for the dispatch pipeline -/

/-- C1 (amended): once the pipeline reaches a SubscriptionValidation event it
returns `{"validationResponse": code}` with status 200 immediately, with no
session lookup, no outbound send and no state change at or after that event,
and no later event of the batch is processed; message events placed earlier
in the batch have already been processed normally. -/
theorem C1_validation_short_circuits (chat : Nat → Json → Option String)
    (send : String → String → Bool) (now : Nat) (ws : WebState)
    (sends : List (String × String)) (rest : List Json) (code : String) :
    processEvents chat send now (mkValidationEvent code :: rest) ws sends
      = ⟨ws, sends, .validation200 (Json.str code)⟩ := rfl

/-- C1 counterexample: a batch holding a message event before the validation
event answers the validation handshake AND triggers an outbound send, so the
claim that no send is triggered regardless of events before the validation
event is false. -/
theorem C1_counterexample :
    (eventgrid_listener chatEcho sendOk 0 ws0
      (some (Json.arr [mkMsgEvent "15551234567" "hello", mkValidationEvent "abc123"]))).sends
      = [("+15551234567", "re:hello")]
    ∧ (eventgrid_listener chatEcho sendOk 0 ws0
      (some (Json.arr [mkMsgEvent "15551234567" "hello", mkValidationEvent "abc123"]))).response
      = .validation200 (Json.str "abc123") := ⟨rfl, rfl⟩

/-- C2 (amended): a failure raised by the agent call while handling one
message event propagates out of the loop: the whole request is answered with
HTTP 400, no send is recorded for that event, and no subsequent event of the
batch is processed. -/
theorem C2_agent_failure_aborts_batch (chat : Nat → Json → Option String)
    (send : String → String → Bool) (now : Nat) (ws : WebState)
    (sends : List (String × String)) (rest : List Json) (sender body : String)
    (h : chat (webGetOrCreate ws now (normalizeSender sender)).2.1 (Json.str body) = none) :
    processEvents chat send now (mkMsgEvent sender body :: rest) ws sends
      = ⟨(webGetOrCreate ws now (normalizeSender sender)).1, sends, .error400⟩ := by
  have hstep : processEvents chat send now (mkMsgEvent sender body :: rest) ws sends
      = match chat (webGetOrCreate ws now (normalizeSender sender)).2.1 (Json.str body) with
        | none => ⟨(webGetOrCreate ws now (normalizeSender sender)).1, sends, .error400⟩
        | some reply =>
          if send (normalizeSender sender) reply then
            processEvents chat send now rest (webGetOrCreate ws now (normalizeSender sender)).1
              (sends ++ [(normalizeSender sender, reply)])
          else ⟨(webGetOrCreate ws now (normalizeSender sender)).1,
                sends ++ [(normalizeSender sender, reply)], .error400⟩ := rfl
  rw [hstep, h]

/-- C2 witness: concrete two-event batch whose first agent call fails. -/
theorem C2_agent_failure_aborts_batch_witness :
    chatFailBot0 (webGetOrCreate ws0 0 (normalizeSender "1")).2.1 (Json.str "a") = none
    ∧ processEvents chatFailBot0 sendOk 0 (mkMsgEvent "1" "a" :: [mkMsgEvent "2" "b"]) ws0 []
      = ⟨(webGetOrCreate ws0 0 (normalizeSender "1")).1, [], .error400⟩ :=
  ⟨rfl, C2_agent_failure_aborts_batch chatFailBot0 sendOk 0 ws0 [] [mkMsgEvent "2" "b"] "1" "a" rfl⟩

/-- C2 counterexample: in a two-message batch whose first agent call fails,
the second event is NOT processed — no outbound send occurs at all and the
request is answered 400, refuting the per-event error-catching claim. -/
theorem C2_counterexample :
    (eventgrid_listener chatFailBot0 sendOk 0 ws0
      (some (Json.arr [mkMsgEvent "1" "a", mkMsgEvent "2" "b"]))).sends = []
    ∧ (eventgrid_listener chatFailBot0 sendOk 0 ws0
      (some (Json.arr [mkMsgEvent "1" "a", mkMsgEvent "2" "b"]))).response = .error400 :=
  ⟨rfl, rfl⟩

/-- C5 (amended): the pipeline extracts the message text from the flat
`content` field only (first match, defaulting to the empty string when the
field is absent); any other shape, including nested `content.text.body`, is
passed through as the raw structure rather than unwrapped to text. -/
theorem C5_flat_content_only (fields : List (String × Json)) :
    (∀ j, Json.lookupField "content" fields = some j →
      extractBody (Json.obj fields) = .ok j)
    ∧ (Json.lookupField "content" fields = none →
      extractBody (Json.obj fields) = .ok (Json.str "")) := by
  constructor
  · intro j hj
    simp [extractBody, Json.pyGet, hj]
  · intro hj
    simp [extractBody, Json.pyGet, hj]

/-- C5 witness: flat `content` is extracted as the contained text. -/
theorem C5_flat_content_only_witness :
    Json.lookupField "content" [("content", Json.str "hello")] = some (Json.str "hello")
    ∧ extractBody (Json.obj [("content", Json.str "hello")]) = .ok (Json.str "hello") :=
  ⟨rfl, (C5_flat_content_only [("content", Json.str "hello")]).1 (Json.str "hello") rfl⟩

/-- C5 counterexample: a nested `content.text.body` payload does not yield
the contained text — the raw dict is passed through instead. -/
theorem C5_counterexample :
    extractBody (Json.obj [("from", Json.str "15551234567"),
      ("content", Json.obj [("text", Json.obj [("body", Json.str "hello")])])])
      ≠ Except.ok (Json.str "hello") := by
  intro h
  rw [show extractBody (Json.obj [("from", Json.str "15551234567"),
      ("content", Json.obj [("text", Json.obj [("body", Json.str "hello")])])])
      = Except.ok (Json.obj [("text", Json.obj [("body", Json.str "hello")])]) from rfl] at h
  injection h with h1
  exact Json.noConfusion h1

/-- C6 (amended): a payload that is a single event object is NOT treated as a
sequence of one — Python iterates over its field names, the first of which
fails classification with AttributeError, so any such non-empty object is
answered with HTTP 400, no session created and no send triggered. -/
theorem C6_single_object_rejected (chat : Nat → Json → Option String)
    (send : String → String → Bool) (now : Nat) (ws : WebState)
    (fields : List (String × Json)) (h : fields ≠ []) :
    eventgrid_listener chat send now ws (some (Json.obj fields)) = ⟨ws, [], .error400⟩ := by
  cases fields with
  | nil => exact absurd rfl h
  | cons f rest => rfl

/-- C6 witness: a concrete single validation-event object is rejected. -/
theorem C6_single_object_rejected_witness :
    ([(("eventType" : String), Json.str "Microsoft.EventGrid.SubscriptionValidationEvent"),
      ("data", Json.obj [("validationCode", Json.str "abc123")])]
        ≠ ([] : List (String × Json)))
    ∧ eventgrid_listener chatEcho sendOk 0 ws0
        (some (Json.obj [("eventType", Json.str "Microsoft.EventGrid.SubscriptionValidationEvent"),
          ("data", Json.obj [("validationCode", Json.str "abc123")])]))
      = ⟨ws0, [], .error400⟩ :=
  ⟨List.cons_ne_nil _ _,
   C6_single_object_rejected chatEcho sendOk 0 ws0
     [("eventType", Json.str "Microsoft.EventGrid.SubscriptionValidationEvent"),
      ("data", Json.obj [("validationCode", Json.str "abc123")])]
     (List.cons_ne_nil _ _)⟩

/-- C6 counterexample: the same single validation event answered correctly
when wrapped in a list is answered 400 when sent bare, so a bare event
structure is not handled as a one-element sequence. -/
theorem C6_counterexample :
    (eventgrid_listener chatEcho sendOk 0 ws0 (some (mkValidationEvent "abc123"))).response
      = .error400
    ∧ (eventgrid_listener chatEcho sendOk 0 ws0
        (some (Json.arr [mkValidationEvent "abc123"]))).response
      = .validation200 (Json.str "abc123") := ⟨rfl, rfl⟩

/-- C7: a malformed or undecodable request body is answered with HTTP 400,
with the state unchanged (zero sessions created) and zero sends triggered:
both when JSON decoding itself raises and when the decoded value is not
iterable as an event sequence. -/
theorem C7_undecodable_400_no_effects (chat : Nat → Json → Option String)
    (send : String → String → Bool) (now : Nat) (ws : WebState) :
    eventgrid_listener chat send now ws none = ⟨ws, [], .error400⟩
    ∧ ∀ j, Json.pyIter j = .error () →
        eventgrid_listener chat send now ws (some j) = ⟨ws, [], .error400⟩ := by
  refine ⟨rfl, ?_⟩
  intro j hj
  simp [eventgrid_listener, hj]

/-- C7 witness: a body decoding to JSON `null` is not iterable and yields
400 with no effects. -/
theorem C7_undecodable_400_no_effects_witness :
    eventgrid_listener chatEcho sendOk 0 ws0 none = ⟨ws0, [], .error400⟩
    ∧ (Json.pyIter Json.null = .error ()
       ∧ eventgrid_listener chatEcho sendOk 0 ws0 (some Json.null) = ⟨ws0, [], .error400⟩) :=
  ⟨(C7_undecodable_400_no_effects chatEcho sendOk 0 ws0).1,
   rfl,
   (C7_undecodable_400_no_effects chatEcho sendOk 0 ws0).2 Json.null rfl⟩

/-- C9: sender normalization is idempotent, `"15551234567"` normalizes to
`"+15551234567"`, and an already-prefixed sender is left unchanged. -/
theorem C9_normalize_idempotent :
    (∀ s, normalizeSender (normalizeSender s) = normalizeSender s)
    ∧ normalizeSender "15551234567" = "+15551234567"
    ∧ (∀ s, pyStartsWith s "+" = true → normalizeSender s = s) := by
  have hplus : ∀ s, pyStartsWith ("+" ++ s) "+" = true := by
    intro s
    have h1 : "+".data = ['+'] := by decide
    show "+".data.isPrefixOf (("+" ++ s).data) = true
    rw [String.data_append, h1]
    simp [List.isPrefixOf]
  refine ⟨?_, rfl, ?_⟩
  · intro s
    by_cases h : pyStartsWith s "+" = true
    · simp [normalizeSender, h]
    · have h2 : pyStartsWith s "+" = false := by
        cases hb : pyStartsWith s "+" with
        | true => exact absurd hb h
        | false => rfl
      simp [normalizeSender, h2, hplus]
  · intro s h
    simp [normalizeSender, h]

/-- C9 witness: idempotence and the prefixed-sender cases at concrete
inputs. -/
theorem C9_normalize_idempotent_witness :
    normalizeSender (normalizeSender "15551234567") = normalizeSender "15551234567"
    ∧ (pyStartsWith "+15551234567" "+" = true
       ∧ normalizeSender "+15551234567" = "+15551234567") :=
  ⟨C9_normalize_idempotent.1 "15551234567",
   rfl,
   C9_normalize_idempotent.2.2 "+15551234567" rfl⟩

/-- C10: a message-received event whose data lacks the `from` field makes the
whole request fail with HTTP 400 (the `startswith` normalization raises
AttributeError on `None`), and no subsequent event of the batch is
processed. -/
theorem C10_missing_sender_aborts_request (chat : Nat → Json → Option String)
    (send : String → String → Bool) (now : Nat) (ws : WebState)
    (sends : List (String × String)) (rest : List Json)
    (dataFields : List (String × Json))
    (h : Json.lookupField "from" dataFields = none) :
    processEvents chat send now
      (Json.obj [("eventType", Json.str "Microsoft.Communication.AdvancedMessageReceived"),
        ("data", Json.obj dataFields)] :: rest) ws sends
      = ⟨ws, sends, .error400⟩ := by
  have hstep : processEvents chat send now
      (Json.obj [("eventType", Json.str "Microsoft.Communication.AdvancedMessageReceived"),
        ("data", Json.obj dataFields)] :: rest) ws sends
      = match normalizeFrom ((Json.lookupField "from" dataFields).getD Json.null) with
        | .error _ => ⟨ws, sends, .error400⟩
        | .ok sender =>
          match chat (webGetOrCreate ws now sender).2.1
              ((Json.lookupField "content" dataFields).getD (Json.str "")) with
          | none => ⟨(webGetOrCreate ws now sender).1, sends, .error400⟩
          | some reply =>
            if send sender reply then
              processEvents chat send now rest (webGetOrCreate ws now sender).1
                (sends ++ [(sender, reply)])
            else ⟨(webGetOrCreate ws now sender).1, sends ++ [(sender, reply)], .error400⟩ := rfl
  rw [hstep, h]
  rfl

/-- C10 witness: concrete batch whose first message event lacks `from`; the
request is 400 and the following well-formed event is never processed. -/
theorem C10_missing_sender_aborts_request_witness :
    Json.lookupField "from" [(("content" : String), Json.str "x")] = none
    ∧ processEvents chatEcho sendOk 0
        (Json.obj [("eventType", Json.str "Microsoft.Communication.AdvancedMessageReceived"),
          ("data", Json.obj [("content", Json.str "x")])] :: [mkMsgEvent "2" "b"]) ws0 []
      = ⟨ws0, [], .error400⟩ :=
  ⟨rfl,
   C10_missing_sender_aborts_request chatEcho sendOk 0 ws0 [] [mkMsgEvent "2" "b"]
     [("content", Json.str "x")] rfl⟩

/-- C3 witness: concrete second call 100 seconds after the first returns the
same handle without invoking the factory. -/
theorem C3_second_call_within_ttl_same_handle_witness :
    (100 : Nat) - 0 ≤ ws0.cm.expiry_seconds
    ∧ (webGetOrCreate (webGetOrCreate ws0 0 "+15551234567").1 100 "+15551234567").2
      = ((webGetOrCreate ws0 0 "+15551234567").2.1, false) :=
  ⟨by decide, C3_second_call_within_ttl_same_handle ws0 "+15551234567" 0 100 (by decide)⟩

/-- C4 witness: concrete second call 1801 seconds after the first invokes the
factory again. -/
theorem C4_expired_invokes_factory_new_handle_witness :
    ((ws0.cm.conversations.map Prod.fst).Nodup
     ∧ (∀ p ∈ ws0.cm.conversations, p.2.bot < ws0.nextBot)
     ∧ ws0.cm.expiry_seconds < 1801 - 0)
    ∧ ((webGetOrCreate (webGetOrCreate ws0 0 "+15551234567").1 1801 "+15551234567").2.2 = true
       ∧ (webGetOrCreate (webGetOrCreate ws0 0 "+15551234567").1 1801 "+15551234567").2.1
         ≠ (webGetOrCreate ws0 0 "+15551234567").2.1) :=
  ⟨⟨by decide, by decide, by decide⟩,
   (C4_expired_invokes_factory_new_handle ws0 "+15551234567" 0 1801
     (by decide) (by decide) (by decide)).1⟩

/-- C8 witness: visibility of a live entry at a concrete store and instant. -/
theorem C8_visibility_and_sweep_witness :
    (((⟨[("+15551234567", ⟨0, 0⟩)], 1800⟩ : CMState).conversations.map Prod.fst).Nodup)
    ∧ ((ConversationManager.get_or_create ⟨[("+15551234567", ⟨0, 0⟩)], 1800⟩ 100
          "+15551234567" 5).2.2 = false
        ↔ ∃ e, lookupAssoc "+15551234567"
              (⟨[("+15551234567", ⟨0, 0⟩)], 1800⟩ : CMState).conversations = some e
            ∧ 100 - e.last_activity
              ≤ (⟨[("+15551234567", ⟨0, 0⟩)], 1800⟩ : CMState).expiry_seconds) :=
  ⟨by decide,
   (C8_visibility_and_sweep ⟨[("+15551234567", ⟨0, 0⟩)], 1800⟩ 100 "+15551234567" 5
     (by decide)).1⟩
